import Mathlib

/-
Shallow embedding of the SyncEverything VS Code extension core
(src/core/synceverything.ts and src/core/gist.ts) together with proofs
about its profile-synchronization behaviour.

External collaborators (the filesystem, the JSON5 parser, the VS Code
workspace configuration, the interactive prompts, the extension host and
the remote gist transport) are modelled as explicit environment fields;
observable actions (file writes, install/uninstall commands, messages,
log lines, HTTP requests) are recorded in an event trace so that
sequencing and side-effect claims can be stated.
-/

/-- JSON-compatible values, used for the opaque `settings` and
`keybindings` payloads of a profile. -/
inductive JVal where
  | str : String → JVal
  | num : Int → JVal
  | bool : Bool → JVal
  | null : JVal
  | arr : List JVal → JVal
  | obj : List (String × JVal) → JVal

mutual

/-- Plain JSON rendering of a value; stands in for `JSON.stringify`
(the pretty-printing whitespace of `JSON.stringify(data, null, 2)` is
not modelled — no claim inspects the rendered text). -/
def stringify : JVal → String
  | .str s => "\x22" ++ s ++ "\x22"
  | .num n => toString n
  | .bool b => if b then "true" else "false"
  | .null => "null"
  | .arr xs => "[" ++ stringifyList xs ++ "]"
  | .obj fs => "\x7b" ++ stringifyFields fs ++ "\x7d"

/-- Comma-separated rendering of a JSON array body. -/
def stringifyList : List JVal → String
  | [] => ""
  | [x] => stringify x
  | x :: xs => stringify x ++ "," ++ stringifyList xs

/-- Comma-separated rendering of a JSON object body. -/
def stringifyFields : List (String × JVal) → String
  | [] => ""
  | [(k, v)] => "\x22" ++ k ++ "\x22:" ++ stringify v
  | (k, v) :: fs => "\x22" ++ k ++ "\x22:" ++ stringify v ++ "," ++ stringifyFields fs

end

/-- Observable actions of the reconciler (`synceverything.ts`). -/
inductive Ev where
  | info (msg : String)
  | logError (msg : String)
  | writeAttempt (path : String)
  | warnPrompt (msg : String)
  | detailsShown (details : String)
  | uninstall (id : String)
  | install (id : String)
  | reloadPrompt
deriving DecidableEq, Repr

/-- One entry of `vscode.extensions.all`: an extension identifier plus
its `packageJSON.isBuiltin` flag. -/
structure ExtItem where
  id : String
  isBuiltin : Bool
deriving DecidableEq, Repr

/-- The collaborators `SyncEverything` talks to, made explicit:
`globalState` is `context.globalState`, `writeRes` the outcome of
`workspace.fs.writeFile` per path, `readFileRes` the outcome of
`fs.readFile` per path (`none` = the read throws), `parse` the outcome
of `JSON5.parse` (`none` = the parse throws), `allExtensions` is
`vscode.extensions.all`, `excludeExtensions` and `confirmBeforeSync`
the `synceverything.*` configuration values, `promptAction` the button
the user picks on the warning dialog (the empty string models a
dismissed dialog), and the two failing lists say which
install/uninstall commands throw. -/
structure Env where
  globalState : String → Option String
  writeRes : String → Bool
  readFileRes : String → Option String
  parse : String → Option JVal
  allExtensions : List ExtItem
  excludeExtensions : List String
  confirmBeforeSync : Bool
  promptAction : String
  failingUninstalls : List String
  failingInstalls : List String

/-- A remote profile payload as consumed by `updateLocalProfile`. -/
structure IProfile where
  profileName : String
  settings : JVal
  keybindings : JVal
  extensions : List String

/-- `SyncEverything.getExtensions`: all non-builtin extension ids,
minus the configured `excludeExtensions` list. -/
def getExtensions (env : Env) : List String :=
  ((env.allExtensions.filter (fun e => !e.isBuiltin)).map (fun e => e.id)).filter
    (fun id => !(env.excludeExtensions.contains id))

/-- The `toInstall` list computed in `SyncEverything.installExtensions`:
remote ids not present in the local (filtered) list. -/
def toInstallOf (env : Env) (remoteList : List String) : List String :=
  remoteList.filter (fun id => !((getExtensions env).contains id))

/-- The `toDelete` list computed in `SyncEverything.installExtensions`:
local (filtered) ids not present in the remote list. -/
def toDeleteOf (env : Env) (remoteList : List String) : List String :=
  (getExtensions env).filter (fun id => !(remoteList.contains id))

/-- The itemized details text built for the "Show Details" branch of
`installExtensions`. -/
def detailsText (toIns toDel : List String) : String :=
  String.intercalate "\n\n"
    (([if toIns.length > 0 then "To Install:\n" ++ String.intercalate "\n" toIns else "",
       if toDel.length > 0 then "To Remove:\n" ++ String.intercalate "\n" toDel else ""]).filter
      (fun s => s ≠ ""))

/-- The confirmation message shown by `installExtensions` before
mutating anything. -/
def confirmMsg (env : Env) (remoteList : List String) : String :=
  "Sync will:\n• Install " ++ toString (toInstallOf env remoteList).length ++
    " extensions\n• Remove " ++ toString (toDeleteOf env remoteList).length ++
    " extensions\n\nContinue?"

/-- The deletion loop of `installExtensions`: for each id the uninstall
command is issued; a throwing command is caught and logged and the loop
continues; the Bool records whether any command succeeded
(the `needsReload` contribution). -/
def runUninstalls (env : Env) : List String → List Ev × Bool
  | [] => ([], false)
  | id :: rest =>
    let ok := !(env.failingUninstalls.contains id)
    let r := runUninstalls env rest
    (Ev.uninstall id ::
      ((if ok then [Ev.info ("Uninstalled extension: " ++ id)]
        else [Ev.logError ("Failed to uninstall " ++ id)]) ++ r.1),
     ok || r.2)

/-- The installation loop of `installExtensions`, after the deletion
loop; same per-item failure handling. -/
def runInstalls (env : Env) : List String → List Ev × Bool
  | [] => ([], false)
  | id :: rest =>
    let ok := !(env.failingInstalls.contains id)
    let r := runInstalls env rest
    (Ev.install id ::
      ((if ok then [Ev.info ("Installed extension: " ++ id)]
        else [Ev.logError ("Failed to install " ++ id)]) ++ r.1),
     ok || r.2)

/-- The execution phase of `installExtensions`: all deletions, then all
installations, then the reload prompt when any command succeeded. -/
def execBatch (env : Env) (toDel toIns : List String) : List Ev :=
  (runUninstalls env toDel).1 ++ (runInstalls env toIns).1 ++
    (if (runUninstalls env toDel).2 || (runInstalls env toIns).2 then [Ev.reloadPrompt] else [])

/-- `SyncEverything.installExtensions`: diff the remote list against the
local (filtered) list; if nothing differs report "already in sync";
otherwise optionally confirm ("Show Details" shows the itemized lists
and returns, anything but "Yes" returns), then run all deletions before
all installations. -/
def installExtensions (env : Env) (remoteList : List String) : List Ev :=
  if (toInstallOf env remoteList).isEmpty && (toDeleteOf env remoteList).isEmpty then
    [Ev.info "Extensions are already in sync"]
  else if env.confirmBeforeSync then
    if env.promptAction = "Show Details" then
      [Ev.warnPrompt (confirmMsg env remoteList),
       Ev.detailsShown (detailsText (toInstallOf env remoteList) (toDeleteOf env remoteList))]
    else if env.promptAction = "Yes" then
      Ev.warnPrompt (confirmMsg env remoteList) ::
        execBatch env (toDeleteOf env remoteList) (toInstallOf env remoteList)
    else
      [Ev.warnPrompt (confirmMsg env remoteList)]
  else
    execBatch env (toDeleteOf env remoteList) (toInstallOf env remoteList)

/-- The content written by `SyncEverything.writeConfigFile`: a raw
string is written verbatim, anything else is JSON-serialized. -/
def serializeData : JVal → String
  | .str s => s
  | d => stringify d

/-- `SyncEverything.writeConfigFile`: attempt the write; on failure log
an error naming the path and rethrow (the thrown error is the
`Except.error`). -/
def writeConfigFile (env : Env) (path : String) (data : JVal) :
    Except String Unit × List Ev :=
  let _ := serializeData data
  if env.writeRes path then
    (Except.ok (), [Ev.writeAttempt path, Ev.info ("Configuration file updated: " ++ path)])
  else
    (Except.error ("Failed to write settings file: " ++ path),
     [Ev.writeAttempt path, Ev.logError ("Failed to write settings file: " ++ path)])

/-- `SyncEverything.updateLocalProfile`: write the settings file, write
the keybindings file, reconcile extensions — each step awaited with no
catch, so a rethrown write failure ends the method. The `undefined`
default mirrors the non-null assertion on `globalState.get`. -/
def updateLocalProfile (env : Env) (profile : IProfile) :
    Except String Unit × List Ev :=
  match writeConfigFile env ((env.globalState "settingsPath").getD "undefined") profile.settings with
  | (Except.error e, t1) => (Except.error e, t1)
  | (Except.ok _, t1) =>
    match writeConfigFile env ((env.globalState "keybindingsPath").getD "undefined") profile.keybindings with
    | (Except.error e, t2) => (Except.error e, t1 ++ t2)
    | (Except.ok _, t2) =>
      (Except.ok (), t1 ++ t2 ++ installExtensions env profile.extensions)

/-- `SyncEverything.readConfigFile`: look up the stored path, read and
JSON5-parse the file; every failure is caught, logged and turned into
`none` (never rethrown). A missing stored path makes the read throw on
the undefined path, landing in the same catch. -/
def readConfigFile (env : Env) (t : String) : Option JVal × List Ev :=
  match env.globalState (t ++ "Path") with
  | none => (none, [Ev.logError ("Failed to read " ++ t ++ " file: undefined")])
  | some path =>
    match env.readFileRes path with
    | none => (none, [Ev.logError ("Failed to read " ++ t ++ " file: " ++ path)])
    | some content =>
      match env.parse content with
      | none => (none, [Ev.logError ("Failed to read " ++ t ++ " file: " ++ path)])
      | some v => (some v, [])

/-- The possibly-partial profile assembled by `getActiveProfile`
(`Partial<IProfile>`): a field read that failed is `none`. -/
structure ProfileSnapshot where
  settings : Option JVal
  keybindings : Option JVal
  extensions : List String

/-- `SyncEverything.getActiveProfile`: read both config files (failures
yield `none` fields rather than exceptions), list extensions, assemble
the snapshot. -/
def getActiveProfile (env : Env) : ProfileSnapshot × List Ev :=
  (⟨(readConfigFile env "settings").1, (readConfigFile env "keybindings").1, getExtensions env⟩,
   (readConfigFile env "settings").2 ++ (readConfigFile env "keybindings").2)

/-- An HTTP failure as classified by `axios.isAxiosError` in
`GistService.handleGistError`: a response with a status code (plus the
backend `data.message` when present and the axios error message), a
request that got no response, or a non-axios error. -/
inductive HttpErr where
  | status (code : Nat) (dataMessage : Option String) (axiosMessage : String)
  | network
  | other
deriving DecidableEq, Repr

/-- JavaScript `a || b` on the optional backend message: an absent or
empty `data.message` falls back to the default. -/
def jsOrElse (s : Option String) (d : String) : String :=
  match s with
  | some m => if m = "" then d else m
  | none => d

/-- `GistService.handleGistError`: map the transport failure to the
human-readable message that is logged and thrown. -/
def handleGistError (e : HttpErr) (operation : String) : String :=
  match e with
  | .status code dataMessage axiosMessage =>
    if code = 401 then
      "Authentication failed during " ++ operation ++ ". Please check your GitHub token."
    else if code = 403 then
      "Access forbidden during " ++ operation ++ ". Check your GitHub permissions."
    else if code = 404 then
      "Resource not found during " ++ operation ++ ". The gist may have been deleted."
    else if code = 422 then
      "Invalid data during " ++ operation ++ ": " ++ jsOrElse dataMessage "Unknown validation error"
    else if code = 429 then
      "Rate limit exceeded during " ++ operation ++ ". Please try again later."
    else
      "GitHub API error during " ++ operation ++ ": " ++ jsOrElse dataMessage axiosMessage
  | .network => "Network error during " ++ operation ++ ". Please check your internet connection."
  | .other => "Failed to " ++ operation

/-- One gist record (`IGist`): id, description and the files map
(name to content). -/
structure IGist where
  id : String
  description : String
  files : List (String × String)
deriving DecidableEq, Repr

/-- The mutable fields of `GistService`: the sentinel description, the
API base URL and the cached master gist id. -/
structure GistSvc where
  description : String := "SyncEverything"
  baseUrl : String := "https://api.github.com/gists"
  masterId : Option String := none
deriving DecidableEq, Repr

/-- HTTP requests issued by `GistService`, recorded for the trace. -/
inductive ReqEv where
  | getReq (url : String)
  | patchReq (url : String) (body : List (String × String))
deriving DecidableEq, Repr

/-- The remote transport's behaviour: responses to `GET {base}/{id}`,
`GET {base}` and `PATCH url body`. -/
structure Remote where
  getGistResp : String → Except HttpErr IGist
  collectionResp : Except HttpErr (List IGist)
  patchResp : String → List (String × String) → Except HttpErr IGist

/-- JavaScript string interpolation of the possibly-undefined
`this.masterId`. -/
def masterIdStr (svc : GistSvc) : String :=
  (svc.masterId).getD "undefined"

/-- `GistService.getGist`: GET the gist by id; a transport failure is
classified by `handleGistError` and thrown. -/
def getGist (svc : GistSvc) (remote : Remote) (gistId : String) :
    Except String IGist × List ReqEv :=
  match remote.getGistResp (svc.baseUrl ++ "/" ++ gistId) with
  | Except.ok g => (Except.ok g, [ReqEv.getReq (svc.baseUrl ++ "/" ++ gistId)])
  | Except.error e =>
    (Except.error (handleGistError e ("fetch gist " ++ gistId)),
     [ReqEv.getReq (svc.baseUrl ++ "/" ++ gistId)])

/-- `GistService.getCollection`: GET all gists; a transport failure is
classified and thrown. -/
def getCollection (svc : GistSvc) (remote : Remote) :
    Except String (List IGist) × List ReqEv :=
  match remote.collectionResp with
  | Except.ok c => (Except.ok c, [ReqEv.getReq svc.baseUrl])
  | Except.error e =>
    (Except.error (handleGistError e "fetching all gists"), [ReqEv.getReq svc.baseUrl])

/-- `GistService.getMaster`: with a cached id, fetch by id — `getGist`
either returns a gist (returned directly) or throws, and the thrown
error propagates because `getMaster` has no catch; with no cached id,
scan the collection for the sentinel description, caching the id of the
first match. The result carries the updated service state. -/
def getMaster (svc : GistSvc) (remote : Remote) :
    Except String (Option IGist × GistSvc) × List ReqEv :=
  match svc.masterId with
  | some mid =>
    match getGist svc remote mid with
    | (Except.ok g, t) => (Except.ok (some g, svc), t)
    | (Except.error e, t) => (Except.error e, t)
  | none =>
    match getCollection svc remote with
    | (Except.error e, t) => (Except.error e, t)
    | (Except.ok coll, t) =>
      match coll.find? (fun g => g.description == svc.description) with
      | some m => (Except.ok (some m, { svc with masterId := some m.id }), t)
      | none => (Except.ok (none, svc), t)

/-- The JSON object `JSON.stringify` receives for a profile. -/
def profileToJVal (p : IProfile) : JVal :=
  JVal.obj [("profileName", JVal.str p.profileName),
            ("settings", p.settings),
            ("keybindings", p.keybindings),
            ("extensions", JVal.arr (p.extensions.map JVal.str))]

/-- `GistService.createProfile`: PATCH the master gist (whatever
`this.masterId` currently interpolates to) with the serialized profile
as the single file entry; a transport failure is classified and
thrown. No check that a master id was ever established. -/
def createProfile (svc : GistSvc) (remote : Remote) (profile : IProfile) :
    Except String IGist × List ReqEv :=
  match remote.patchResp (svc.baseUrl ++ "/" ++ masterIdStr svc)
      [(profile.profileName ++ ".json", stringify (profileToJVal profile))] with
  | Except.ok g =>
    (Except.ok g,
     [ReqEv.patchReq (svc.baseUrl ++ "/" ++ masterIdStr svc)
        [(profile.profileName ++ ".json", stringify (profileToJVal profile))]])
  | Except.error e =>
    (Except.error (handleGistError e ("update/create profile " ++ profile.profileName)),
     [ReqEv.patchReq (svc.baseUrl ++ "/" ++ masterIdStr svc)
        [(profile.profileName ++ ".json", stringify (profileToJVal profile))]])

/-- `GistService.deleteProfile`: PATCH the master gist setting the named
file's content to the empty string; a transport failure is classified
and thrown. -/
def deleteProfile (svc : GistSvc) (remote : Remote) (profileName : String) :
    Except String Unit × List ReqEv :=
  match remote.patchResp (svc.baseUrl ++ "/" ++ masterIdStr svc)
      [(profileName ++ ".json", "")] with
  | Except.ok _ =>
    (Except.ok (),
     [ReqEv.patchReq (svc.baseUrl ++ "/" ++ masterIdStr svc) [(profileName ++ ".json", "")]])
  | Except.error e =>
    (Except.error (handleGistError e ("delete profile " ++ profileName)),
     [ReqEv.patchReq (svc.baseUrl ++ "/" ++ masterIdStr svc) [(profileName ++ ".json", "")]])

/-- Overwrite-or-append of one file entry in a gist files map. -/
def upsertFile (files : List (String × String)) (pr : String × String) :
    List (String × String) :=
  if files.any (fun f => f.1 = pr.1) then
    files.map (fun f => if f.1 = pr.1 then (f.1, pr.2) else f)
  else files ++ [pr]

/-- Modelled from the spec: the remote store's PATCH merge semantics for
the files map of a gist (spec section 6, missing from src because the
server is the external GitHub backend) — each named entry of the patch
body overwrites or adds that file, and empty content removes the named
file. -/
def applyPatch (files : List (String × String)) (patch : List (String × String)) :
    List (String × String) :=
  patch.foldl
    (fun acc pr => if pr.2 = "" then acc.filter (fun f => f.1 ≠ pr.1) else upsertFile acc pr)
    files

/-- True exactly on install events. -/
def isInstallEv : Ev → Bool
  | .install _ => true
  | _ => false

/-- True exactly on uninstall events. -/
def isUninstallEv : Ev → Bool
  | .uninstall _ => true
  | _ => false

/-- Service state with a stale cached master id. -/
def svcC1 : GistSvc := { masterId := some "stale" }

/-- A master gist carrying the sentinel description. -/
def masterGistC1 : IGist := ⟨"m1", "SyncEverything", []⟩

/-- Remote where the by-id fetch 404s but the collection scan would find
the sentinel-description gist. -/
def remoteC1 : Remote :=
  { getGistResp := fun _ =>
      Except.error (HttpErr.status 404 none "Request failed with status code 404"),
    collectionResp := Except.ok [masterGistC1],
    patchResp := fun _ _ => Except.error HttpErr.other }

/-- Environment whose settings write fails while the keybindings write
would succeed. -/
def envC2 : Env :=
  { globalState := fun k =>
      if k = "settingsPath" then some "S"
      else if k = "keybindingsPath" then some "K" else none,
    writeRes := fun p => !(p == "S"),
    readFileRes := fun _ => none,
    parse := fun _ => none,
    allExtensions := [],
    excludeExtensions := [],
    confirmBeforeSync := false,
    promptAction := "",
    failingUninstalls := [],
    failingInstalls := [] }

/-- A remote profile used as concrete input. -/
def profC2 : IProfile := ⟨"p", JVal.null, JVal.null, ["a"]⟩

/-- Service state with no master id ever established. -/
def svcC3 : GistSvc := { masterId := none }

/-- Remote that answers every PATCH with a 404. -/
def remoteC3 : Remote :=
  { getGistResp := fun _ => Except.error HttpErr.other,
    collectionResp := Except.error HttpErr.other,
    patchResp := fun _ _ =>
      Except.error (HttpErr.status 404 none "Request failed with status code 404") }

/-- A profile to upload. -/
def profC3 : IProfile := ⟨"P", JVal.null, JVal.null, []⟩

/-- Environment with local extensions a and b and nothing excluded. -/
def envC4 : Env :=
  { globalState := fun _ => none,
    writeRes := fun _ => true,
    readFileRes := fun _ => none,
    parse := fun _ => none,
    allExtensions := [⟨"a", false⟩, ⟨"b", false⟩],
    excludeExtensions := [],
    confirmBeforeSync := true,
    promptAction := "",
    failingUninstalls := [],
    failingInstalls := [] }

/-- Environment with one local extension and confirmation disabled. -/
def envC5 : Env :=
  { globalState := fun _ => none,
    writeRes := fun _ => true,
    readFileRes := fun _ => none,
    parse := fun _ => none,
    allExtensions := [⟨"a", false⟩],
    excludeExtensions := [],
    confirmBeforeSync := false,
    promptAction := "",
    failingUninstalls := [],
    failingInstalls := [] }

/-- Environment excluding extension x, which is not installed locally. -/
def envC6 : Env :=
  { globalState := fun _ => none,
    writeRes := fun _ => true,
    readFileRes := fun _ => none,
    parse := fun _ => none,
    allExtensions := [],
    excludeExtensions := ["x"],
    confirmBeforeSync := false,
    promptAction := "",
    failingUninstalls := [],
    failingInstalls := [] }

/-- Environment with confirmation enabled and a declining user. -/
def envC7 : Env :=
  { globalState := fun _ => none,
    writeRes := fun _ => true,
    readFileRes := fun _ => none,
    parse := fun _ => none,
    allExtensions := [⟨"a", false⟩],
    excludeExtensions := [],
    confirmBeforeSync := true,
    promptAction := "Cancel",
    failingUninstalls := [],
    failingInstalls := [] }

/-- Default service state for the deletion claim. -/
def svcC8 : GistSvc := {}

/-- Remote that accepts every PATCH. -/
def remoteC8 : Remote :=
  { getGistResp := fun _ => Except.error HttpErr.other,
    collectionResp := Except.error HttpErr.other,
    patchResp := fun _ _ => Except.ok ⟨"m", "SyncEverything", []⟩ }

/-- Environment whose settings file read fails while the keybindings
file reads and parses fine. -/
def envC9 : Env :=
  { globalState := fun k =>
      if k = "settingsPath" then some "S"
      else if k = "keybindingsPath" then some "K" else none,
    writeRes := fun _ => true,
    readFileRes := fun p => if p = "K" then some "KB" else none,
    parse := fun c => if c = "KB" then some (JVal.arr []) else none,
    allExtensions := [⟨"a", false⟩],
    excludeExtensions := [],
    confirmBeforeSync := true,
    promptAction := "",
    failingUninstalls := [],
    failingInstalls := [] }

/-- Environment with confirmation enabled and a user asking for
details. -/
def envC10 : Env :=
  { globalState := fun _ => none,
    writeRes := fun _ => true,
    readFileRes := fun _ => none,
    parse := fun _ => none,
    allExtensions := [⟨"a", false⟩],
    excludeExtensions := [],
    confirmBeforeSync := true,
    promptAction := "Show Details",
    failingUninstalls := [],
    failingInstalls := [] }

/-- The deletion loop emits no install events. -/
theorem runUninstalls_no_install (env : Env) (l : List String) :
    ∀ e ∈ (runUninstalls env l).1, isInstallEv e = false := by
  induction l with
  | nil => simp [runUninstalls]
  | cons id rest ih =>
    intro e he
    simp only [runUninstalls, List.mem_cons, List.mem_append] at he
    rcases he with h | h | h
    · subst h; rfl
    · split at h <;> simp_all [isInstallEv]
    · exact ih e h

/-- The installation loop emits no uninstall events. -/
theorem runInstalls_no_uninstall (env : Env) (l : List String) :
    ∀ e ∈ (runInstalls env l).1, isUninstallEv e = false := by
  induction l with
  | nil => simp [runInstalls]
  | cons id rest ih =>
    intro e he
    simp only [runInstalls, List.mem_cons, List.mem_append] at he
    rcases he with h | h | h
    · subst h; rfl
    · split at h <;> simp_all [isUninstallEv]
    · exact ih e h

/-- Every uninstall event of the deletion loop names an id of its input
list. -/
theorem runUninstalls_uninstall_mem (env : Env) (l : List String) (id : String)
    (h : Ev.uninstall id ∈ (runUninstalls env l).1) : id ∈ l := by
  induction l with
  | nil => simp [runUninstalls] at h
  | cons a rest ih =>
    simp only [runUninstalls, List.mem_cons, List.mem_append] at h
    rcases h with h | h | h
    · simp only [Ev.uninstall.injEq] at h
      exact h ▸ List.mem_cons_self a rest
    · split at h <;> simp_all
    · exact List.mem_cons_of_mem a (ih h)

/-- The execution phase splits into an install-free prefix followed by
an uninstall-free suffix. -/
theorem execBatch_split (env : Env) (toDel toIns : List String) :
    ∃ t1 t2, execBatch env toDel toIns = t1 ++ t2 ∧
      (∀ e ∈ t1, isInstallEv e = false) ∧ (∀ e ∈ t2, isUninstallEv e = false) := by
  refine ⟨(runUninstalls env toDel).1,
    (runInstalls env toIns).1 ++
      (if (runUninstalls env toDel).2 || (runInstalls env toIns).2 then [Ev.reloadPrompt]
       else []),
    by simp [execBatch], runUninstalls_no_install env toDel, ?_⟩
  intro e he
  rcases List.mem_append.mp he with h | h
  · exact runInstalls_no_uninstall env toIns e h
  · split at h <;> simp_all; subst h; rfl

/-- Every uninstall event of the execution phase names an id of the
deletion list. -/
theorem execBatch_uninstall_mem (env : Env) (toDel toIns : List String) (id : String)
    (h : Ev.uninstall id ∈ execBatch env toDel toIns) : id ∈ toDel := by
  simp only [execBatch, List.mem_append] at h
  rcases h with (h | h) | h
  · exact runUninstalls_uninstall_mem env toDel id h
  · exact absurd (runInstalls_no_uninstall env toIns _ h) (by simp [isUninstallEv])
  · split at h <;> simp_all

/-- Every uninstall event of `installExtensions` names an id of
`toDeleteOf`. -/
theorem installExtensions_uninstall_mem (env : Env) (R : List String) (id : String)
    (h : Ev.uninstall id ∈ installExtensions env R) : id ∈ toDeleteOf env R := by
  simp only [installExtensions] at h
  split at h
  · simp at h
  · split at h
    · split at h
      · simp at h
      · split at h
        · rcases List.mem_cons.mp h with h | h
          · simp at h
          · exact execBatch_uninstall_mem env _ _ id h
        · simp at h
    · exact execBatch_uninstall_mem env _ _ id h

/-- A config-file read that produced no value logged exactly one
error. -/
theorem readConfigFile_none_logs (env : Env) (t : String)
    (h : (readConfigFile env t).1 = none) :
    ∃ m, (readConfigFile env t).2 = [Ev.logError m] := by
  unfold readConfigFile at h ⊢
  cases hg : env.globalState (t ++ "Path") with
  | none => exact ⟨"Failed to read " ++ t ++ " file: undefined", by simp [hg]⟩
  | some path =>
    cases hr : env.readFileRes path with
    | none => exact ⟨"Failed to read " ++ t ++ " file: " ++ path, by simp [hg, hr]⟩
    | some content =>
      cases hp : env.parse content with
      | none => exact ⟨"Failed to read " ++ t ++ " file: " ++ path, by simp [hg, hr, hp]⟩
      | some v => simp [hg, hr, hp] at h

/-- The already-in-sync test of `installExtensions` is false when one of
the diff lists is non-empty. -/
theorem diff_cond_false (env : Env) (R : List String)
    (hne : ¬(toInstallOf env R = [] ∧ toDeleteOf env R = [])) :
    ((toInstallOf env R).isEmpty && (toDeleteOf env R).isEmpty) = false := by
  cases hI : (toInstallOf env R).isEmpty <;> cases hD : (toDeleteOf env R).isEmpty <;>
    simp_all [List.isEmpty_iff]

/-- C1: with a stale cached master id whose by-id fetch 404s, the code
does not fall back to the collection scan — `getGist` throws the
classified 404 and `getMaster` propagates it, even though the full
collection holds a gist with the sentinel description. This contradicts
the code's own comment ("Try to find master list if no ID or gist
cannot be found by ID") and the spec, so the claim marks a code bug. -/
theorem getMaster_stale_cached_id_propagates_404 :
    svcC1.masterId = some "stale" ∧
    remoteC1.getGistResp (svcC1.baseUrl ++ "/stale") =
      Except.error (HttpErr.status 404 none "Request failed with status code 404") ∧
    remoteC1.collectionResp = Except.ok [masterGistC1] ∧
    masterGistC1.description = svcC1.description ∧
    (getMaster svcC1 remoteC1).1 =
      Except.error "Resource not found during fetch gist stale. The gist may have been deleted." :=
  ⟨rfl, rfl, rfl, rfl, rfl⟩

/-- C2 counterexample: when the settings write fails, the keybindings
write is never attempted — the trace of `updateLocalProfile` ends at
the settings failure although the keybindings path is set and its write
would succeed. -/
theorem updateLocalProfile_settings_failure_skips_rest_cex :
    envC2.globalState "keybindingsPath" = some "K" ∧
    envC2.writeRes "K" = true ∧
    (updateLocalProfile envC2 profC2).2 =
      [Ev.writeAttempt "S", Ev.logError "Failed to write settings file: S"] ∧
    Ev.writeAttempt "K" ∉ (updateLocalProfile envC2 profC2).2 := by
  refine ⟨rfl, rfl, rfl, ?_⟩
  decide

/-- C2 (amended): a failure writing the settings file aborts
`updateLocalProfile` — the failure is logged naming the failing path
and rethrown, and neither the keybindings write nor the extension
reconciliation is attempted. -/
theorem updateLocalProfile_aborts_after_settings_write_failure (env : Env) (p : IProfile)
    (h : env.writeRes ((env.globalState "settingsPath").getD "undefined") = false) :
    updateLocalProfile env p =
      (Except.error
        ("Failed to write settings file: " ++ (env.globalState "settingsPath").getD "undefined"),
       [Ev.writeAttempt ((env.globalState "settingsPath").getD "undefined"),
        Ev.logError
          ("Failed to write settings file: " ++
            (env.globalState "settingsPath").getD "undefined")]) := by
  simp [updateLocalProfile, writeConfigFile, h]

/-- Witness for the amended C2 theorem at a concrete environment. -/
theorem updateLocalProfile_aborts_witness :
    envC2.writeRes ((envC2.globalState "settingsPath").getD "undefined") = false ∧
    updateLocalProfile envC2 profC2 =
      (Except.error
        ("Failed to write settings file: " ++ (envC2.globalState "settingsPath").getD "undefined"),
       [Ev.writeAttempt ((envC2.globalState "settingsPath").getD "undefined"),
        Ev.logError
          ("Failed to write settings file: " ++
            (envC2.globalState "settingsPath").getD "undefined")]) :=
  ⟨by decide, updateLocalProfile_aborts_after_settings_write_failure envC2 profC2 (by decide)⟩

/-- C3 counterexample: with no master id established, `createProfile`
does issue a remote request — a PATCH to `{baseUrl}/undefined` — and
surfaces the remote store's 404 classification, not a precondition
violation. -/
theorem createProfile_without_master_requests_cex :
    svcC3.masterId = none ∧
    (createProfile svcC3 remoteC3 profC3).2 =
      [ReqEv.patchReq "https://api.github.com/gists/undefined"
        [("P.json", stringify (profileToJVal profC3))]] ∧
    (createProfile svcC3 remoteC3 profC3).1 =
      Except.error
        "Resource not found during update/create profile P. The gist may have been deleted." :=
  ⟨rfl, rfl, rfl⟩

/-- C3 (amended): `createProfile` performs no precondition check on the
master id: with none established it still PATCHes `{baseUrl}/undefined`
and, when the remote rejects, surfaces `handleGistError`'s remote
classification to the caller. -/
theorem createProfile_no_precondition_check (svc : GistSvc) (remote : Remote) (p : IProfile)
    (h : svc.masterId = none) :
    (createProfile svc remote p).2 =
      [ReqEv.patchReq (svc.baseUrl ++ "/" ++ "undefined")
        [(p.profileName ++ ".json", stringify (profileToJVal p))]] ∧
    (∀ e, remote.patchResp (svc.baseUrl ++ "/" ++ "undefined")
        [(p.profileName ++ ".json", stringify (profileToJVal p))] = Except.error e →
      (createProfile svc remote p).1 =
        Except.error (handleGistError e ("update/create profile " ++ p.profileName))) := by
  have hm : masterIdStr svc = "undefined" := by simp [masterIdStr, h]
  constructor
  · simp only [createProfile, hm]
    split <;> rfl
  · intro e he
    simp only [createProfile, hm, he]

/-- Witness for the amended C3 theorem at a concrete service state with
no master id. -/
theorem createProfile_no_precondition_check_witness :
    svcC3.masterId = none ∧
    ((createProfile svcC3 remoteC3 profC3).2 =
      [ReqEv.patchReq (svcC3.baseUrl ++ "/" ++ "undefined")
        [(profC3.profileName ++ ".json", stringify (profileToJVal profC3))]] ∧
     (∀ e, remoteC3.patchResp (svcC3.baseUrl ++ "/" ++ "undefined")
        [(profC3.profileName ++ ".json", stringify (profileToJVal profC3))] = Except.error e →
       (createProfile svcC3 remoteC3 profC3).1 =
         Except.error (handleGistError e ("update/create profile " ++ profC3.profileName)))) :=
  ⟨rfl, createProfile_no_precondition_check svcC3 remoteC3 profC3 rfl⟩

/-- C4: the reconciliation diff is the pair of set differences — an id
is installed iff remote-but-not-local, removed iff local-but-not-remote,
the two lists are disjoint, and when local and remote agree as sets both
are empty and the only action is the "already in sync" message. -/
theorem extension_diff_sets_correct (env : Env) (R : List String) :
    (∀ id, id ∈ toInstallOf env R ↔ id ∈ R ∧ id ∉ getExtensions env) ∧
    (∀ id, id ∈ toDeleteOf env R ↔ id ∈ getExtensions env ∧ id ∉ R) ∧
    (∀ id, ¬(id ∈ toInstallOf env R ∧ id ∈ toDeleteOf env R)) ∧
    ((∀ id, id ∈ getExtensions env ↔ id ∈ R) →
      toInstallOf env R = [] ∧ toDeleteOf env R = [] ∧
      installExtensions env R = [Ev.info "Extensions are already in sync"]) := by
  have h1 : ∀ id, id ∈ toInstallOf env R ↔ id ∈ R ∧ id ∉ getExtensions env := by
    intro id; simp [toInstallOf, List.mem_filter]
  have h2 : ∀ id, id ∈ toDeleteOf env R ↔ id ∈ getExtensions env ∧ id ∉ R := by
    intro id; simp [toDeleteOf, List.mem_filter]
  refine ⟨h1, h2, ?_, ?_⟩
  · intro id ⟨hi, hd⟩
    exact ((h1 id).mp hi).2 ((h2 id).mp hd).1
  · intro hLR
    have hi : toInstallOf env R = [] := by
      rw [toInstallOf, List.filter_eq_nil_iff]
      intro a ha
      simp [(hLR a).mpr ha]
    have hd : toDeleteOf env R = [] := by
      rw [toDeleteOf, List.filter_eq_nil_iff]
      intro a ha
      simp [(hLR a).mp ha]
    exact ⟨hi, hd, by simp [installExtensions, hi, hd]⟩

/-- Witness for C4's conditional part at a concrete environment whose
local set equals the remote list. -/
theorem extension_diff_sets_correct_witness :
    installExtensions envC4 ["a", "b"] = [Ev.info "Extensions are already in sync"] :=
  ((extension_diff_sets_correct envC4 ["a", "b"]).2.2.2 (fun _ => Iff.rfl)).2.2

/-- C5: for a batch with non-empty removal and install lists, the trace
of `installExtensions` splits into an install-free prefix and an
uninstall-free suffix — every uninstall command is issued strictly
before any install command. -/
theorem uninstalls_precede_installs (env : Env) (R : List String)
    (_hd : toDeleteOf env R ≠ []) (hi : toInstallOf env R ≠ []) :
    ∃ t1 t2, installExtensions env R = t1 ++ t2 ∧
      (∀ e ∈ t1, isInstallEv e = false) ∧ (∀ e ∈ t2, isUninstallEv e = false) := by
  have hcond : ((toInstallOf env R).isEmpty && (toDeleteOf env R).isEmpty) = false :=
    diff_cond_false env R (fun hcontra => hi hcontra.1)
  by_cases hc : env.confirmBeforeSync
  · by_cases hsd : env.promptAction = "Show Details"
    · refine ⟨[Ev.warnPrompt (confirmMsg env R),
          Ev.detailsShown (detailsText (toInstallOf env R) (toDeleteOf env R))], [],
        by simp [installExtensions, hcond, hc, hsd], ?_, by simp⟩
      intro e he
      rcases List.mem_cons.mp he with rfl | he
      · rfl
      · simp at he; subst he; rfl
    · by_cases hy : env.promptAction = "Yes"
      · obtain ⟨t1, t2, heq, ht1, ht2⟩ := execBatch_split env (toDeleteOf env R) (toInstallOf env R)
        refine ⟨Ev.warnPrompt (confirmMsg env R) :: t1, t2, ?_, ?_, ht2⟩
        · simp [installExtensions, hcond, hc, hsd, hy, heq]
        · intro e he
          rcases List.mem_cons.mp he with rfl | he
          · rfl
          · exact ht1 e he
      · refine ⟨[Ev.warnPrompt (confirmMsg env R)], [],
          by simp [installExtensions, hcond, hc, hsd, hy], ?_, by simp⟩
        intro e he
        simp at he; subst he; rfl
  · obtain ⟨t1, t2, heq, ht1, ht2⟩ := execBatch_split env (toDeleteOf env R) (toInstallOf env R)
    exact ⟨t1, t2, by simp [installExtensions, hcond, hc, heq], ht1, ht2⟩

/-- Witness for C5 at a concrete environment where both toRemove and
toInstall are non-empty. -/
theorem uninstalls_precede_installs_witness :
    (toDeleteOf envC5 ["d"] ≠ [] ∧ toInstallOf envC5 ["d"] ≠ []) ∧
    (∃ t1 t2, installExtensions envC5 ["d"] = t1 ++ t2 ∧
      (∀ e ∈ t1, isInstallEv e = false) ∧ (∀ e ∈ t2, isUninstallEv e = false)) :=
  ⟨⟨by decide, by decide⟩, uninstalls_precede_installs envC5 ["d"] (by decide) (by decide)⟩

/-- C6 counterexample: an identifier on the excludeExtensions list that
occurs in the remote profile's extension list is diffed into toInstall
and an install command is issued for it — the exclusion list only
filters the local snapshot. -/
theorem excluded_extension_installed_cex :
    "x" ∈ envC6.excludeExtensions ∧
    "x" ∈ toInstallOf envC6 ["x"] ∧
    Ev.install "x" ∈ installExtensions envC6 ["x"] := by
  decide

/-- C6 (amended): an excluded identifier never appears in the local
snapshot or in toRemove and no uninstall command is ever issued for it;
but exclusion does not shield the remote direction — an excluded id on
the remote list lands in toInstall (and is installed when the batch
executes). -/
theorem excluded_never_uninstalled (env : Env) (R : List String) (id : String)
    (h : id ∈ env.excludeExtensions) :
    id ∉ getExtensions env ∧ id ∉ toDeleteOf env R ∧
    Ev.uninstall id ∉ installExtensions env R ∧
    (id ∈ R → id ∈ toInstallOf env R) := by
  have hg : id ∉ getExtensions env := by
    intro hmem
    have hpred := List.of_mem_filter hmem
    simp at hpred
    exact hpred h
  have hdel : id ∉ toDeleteOf env R := by
    intro hmem
    exact hg (List.mem_of_mem_filter hmem)
  refine ⟨hg, hdel, ?_, ?_⟩
  · intro hmem
    exact hdel (installExtensions_uninstall_mem env R id hmem)
  · intro hR
    simp [toInstallOf, List.mem_filter]
    exact ⟨hR, fun hcontra => (hg hcontra).elim⟩

/-- Witness for the amended C6 theorem at a concrete environment. -/
theorem excluded_never_uninstalled_witness :
    ("x" ∈ envC6.excludeExtensions) ∧ ("x" ∉ toDeleteOf envC6 ["x"]) :=
  ⟨by decide, (excluded_never_uninstalled envC6 ["x"] "x" (by decide)).2.1⟩

/-- C7: with confirmation enabled, a non-empty diff and a user answer
that is neither "Yes" nor "Show Details", `installExtensions` stops at
the prompt: its whole trace is the warning prompt, so no install, no
uninstall and no file write occurs. -/
theorem decline_confirmation_no_mutations (env : Env) (R : List String)
    (hc : env.confirmBeforeSync = true)
    (hne : ¬(toInstallOf env R = [] ∧ toDeleteOf env R = []))
    (hsd : env.promptAction ≠ "Show Details") (hy : env.promptAction ≠ "Yes") :
    installExtensions env R = [Ev.warnPrompt (confirmMsg env R)] ∧
    (∀ i, Ev.install i ∉ installExtensions env R) ∧
    (∀ i, Ev.uninstall i ∉ installExtensions env R) ∧
    (∀ p, Ev.writeAttempt p ∉ installExtensions env R) := by
  have heq : installExtensions env R = [Ev.warnPrompt (confirmMsg env R)] := by
    simp [installExtensions, diff_cond_false env R hne, hc, hsd, hy]
  refine ⟨heq, ?_, ?_, ?_⟩ <;> intro i <;> rw [heq] <;> simp

/-- Witness for C7 at a concrete environment with a cancelling user. -/
theorem decline_confirmation_no_mutations_witness :
    (envC7.confirmBeforeSync = true ∧
     ¬(toInstallOf envC7 ["d"] = [] ∧ toDeleteOf envC7 ["d"] = []) ∧
     envC7.promptAction ≠ "Show Details" ∧ envC7.promptAction ≠ "Yes") ∧
    installExtensions envC7 ["d"] = [Ev.warnPrompt (confirmMsg envC7 ["d"])] :=
  ⟨⟨by decide, by decide, by decide, by decide⟩,
   (decline_confirmation_no_mutations envC7 ["d"] (by decide) (by decide) (by decide)
      (by decide)).1⟩

/-- Looking up the removed key after filtering it out yields nothing. -/
theorem lookup_filterout_self (n : String) (m : List (String × String)) :
    (m.filter (fun f => f.1 ≠ n)).lookup n = none := by
  induction m with
  | nil => rfl
  | cons a as ih =>
    obtain ⟨a1, a2⟩ := a
    by_cases ha : a1 = n
    · simpa [List.filter_cons, ha] using ih
    · have hne : (n == a1) = false := beq_eq_false_iff_ne.mpr (fun hh => ha hh.symm)
      simp [List.filter_cons, ha, List.lookup, hne, ih]
      exact fun x y _ hxn hnx => hxn hnx.symm

/-- Filtering out one key leaves every other lookup unchanged. -/
theorem lookup_filterout_ne (n k : String) (hk : k ≠ n) (m : List (String × String)) :
    (m.filter (fun f => f.1 ≠ n)).lookup k = m.lookup k := by
  induction m with
  | nil => rfl
  | cons a as ih =>
    obtain ⟨a1, a2⟩ := a
    by_cases ha : a1 = n
    · subst ha
      have hne : (k == a1) = false := beq_eq_false_iff_ne.mpr hk
      simp [List.filter_cons, List.lookup, hne]
      simpa using ih
    · cases hka : (k == a1) <;> simp [List.filter_cons, ha, List.lookup, hka]
      simpa using ih

/-- C8: `deleteProfile` sends exactly one PATCH whose body sets the
named profile's file to empty content; under the remote store's PATCH
merge semantics this removes that entry from the master record's files
map and leaves the content of every other entry unchanged. -/
theorem deleteProfile_removes_only_named_entry (svc : GistSvc) (remote : Remote)
    (name : String) (m : List (String × String)) :
    (deleteProfile svc remote name).2 =
      [ReqEv.patchReq (svc.baseUrl ++ "/" ++ masterIdStr svc) [(name ++ ".json", "")]] ∧
    (applyPatch m [(name ++ ".json", "")]).lookup (name ++ ".json") = none ∧
    (∀ k, k ≠ name ++ ".json" →
      (applyPatch m [(name ++ ".json", "")]).lookup k = m.lookup k) := by
  have hap : applyPatch m [(name ++ ".json", "")] =
      m.filter (fun f => f.1 ≠ name ++ ".json") := by
    simp [applyPatch]
  refine ⟨?_, ?_, ?_⟩
  · cases hp : remote.patchResp (svc.baseUrl ++ "/" ++ masterIdStr svc)
        [(name ++ ".json", "")] with
    | ok g => simp [deleteProfile, hp]
    | error e => simp [deleteProfile, hp]
  · rw [hap]
    exact lookup_filterout_self (name ++ ".json") m
  · intro k hk
    rw [hap]
    exact lookup_filterout_ne (name ++ ".json") k hk m

/-- Witness for C8 at a concrete master files map with two entries. -/
theorem deleteProfile_removes_only_named_entry_witness :
    (("q.json" : String) ≠ "p" ++ ".json") ∧
    (applyPatch [("p.json", "x"), ("q.json", "y")] [("p" ++ ".json", "")]).lookup "q.json" =
      [("p.json", "x"), ("q.json", "y")].lookup "q.json" :=
  ⟨by decide,
   (deleteProfile_removes_only_named_entry svcC8 remoteC8 "p"
      [("p.json", "x"), ("q.json", "y")]).2.2 "q.json" (by decide)⟩

/-- C9: when the settings file read fails but the keybindings read
succeeds, `getActiveProfile` returns a snapshot with `settings` absent
and `keybindings` and `extensions` populated, and the read failure is
logged on the trace instead of being thrown. -/
theorem snapshot_settings_failure_partial (env : Env) (k : JVal)
    (hs : (readConfigFile env "settings").1 = none)
    (hk : (readConfigFile env "keybindings").1 = some k) :
    (getActiveProfile env).1.settings = none ∧
    (getActiveProfile env).1.keybindings = some k ∧
    (getActiveProfile env).1.extensions = getExtensions env ∧
    ∃ m, Ev.logError m ∈ (getActiveProfile env).2 := by
  obtain ⟨m, hm⟩ := readConfigFile_none_logs env "settings" hs
  exact ⟨by simp [getActiveProfile, hs], by simp [getActiveProfile, hk],
    by simp [getActiveProfile], ⟨m, by simp [getActiveProfile, hm]⟩⟩

/-- Witness for C9 at a concrete environment whose settings read fails
while the keybindings read and parse succeed. -/
theorem snapshot_settings_failure_partial_witness :
    ((readConfigFile envC9 "settings").1 = none) ∧
    ((readConfigFile envC9 "keybindings").1 = some (JVal.arr [])) ∧
    ((getActiveProfile envC9).1.settings = none ∧
     (getActiveProfile envC9).1.keybindings = some (JVal.arr []) ∧
     (getActiveProfile envC9).1.extensions = getExtensions envC9 ∧
     ∃ m, Ev.logError m ∈ (getActiveProfile envC9).2) :=
  ⟨rfl, rfl, snapshot_settings_failure_partial envC9 (JVal.arr []) rfl rfl⟩

/-- C10: with confirmation enabled and a non-empty diff, choosing
"Show Details" displays the itemized lists and then returns — the trace
is exactly the prompt plus the details view, with no install or
uninstall command issued; there is no path back to execution. -/
theorem show_details_abandons_batch (env : Env) (R : List String)
    (hc : env.confirmBeforeSync = true)
    (hne : ¬(toInstallOf env R = [] ∧ toDeleteOf env R = []))
    (hsd : env.promptAction = "Show Details") :
    installExtensions env R =
      [Ev.warnPrompt (confirmMsg env R),
       Ev.detailsShown (detailsText (toInstallOf env R) (toDeleteOf env R))] ∧
    (∀ i, Ev.install i ∉ installExtensions env R) ∧
    (∀ i, Ev.uninstall i ∉ installExtensions env R) := by
  have heq : installExtensions env R =
      [Ev.warnPrompt (confirmMsg env R),
       Ev.detailsShown (detailsText (toInstallOf env R) (toDeleteOf env R))] := by
    simp [installExtensions, diff_cond_false env R hne, hc, hsd]
  refine ⟨heq, ?_, ?_⟩ <;> intro i <;> rw [heq] <;> simp

/-- Witness for C10 at a concrete environment where the user asks for
details. -/
theorem show_details_abandons_batch_witness :
    (envC10.confirmBeforeSync = true ∧
     ¬(toInstallOf envC10 ["d"] = [] ∧ toDeleteOf envC10 ["d"] = []) ∧
     envC10.promptAction = "Show Details") ∧
    installExtensions envC10 ["d"] =
      [Ev.warnPrompt (confirmMsg envC10 ["d"]),
       Ev.detailsShown (detailsText (toInstallOf envC10 ["d"]) (toDeleteOf envC10 ["d"]))] :=
  ⟨⟨by decide, by decide, by decide⟩,
   (show_details_abandons_batch envC10 ["d"] (by decide) (by decide) (by decide)).1⟩
